import Mathlib

/-!
Shallow embedding of `src/index.js` (aapkasathi/backend): an Express app
offering CRUD over `vendors` and `bank_accounts` tables in Supabase, with
photo attachments uploaded to a Supabase storage bucket named `photos`.

JavaScript objects (`req.body`, rows, patches) are modelled as association
lists from `String` keys to `Val` values, where `Val` distinguishes string
values from JS `null`.  JS object spread `{...a, ...b}` is modelled by
`mergeObj` (later keys override, existing keys keep their position, new keys
are appended — the semantics of spread for objects with unique keys).

The Supabase record store and blob store are part of the explicit state
`SState`; nondeterminism of the external collaborators (a query, upload,
insert or update failing) is captured by an `Oracle` parameter.  Observable
side effects needed by the specification's testable properties (upload
attempts, uniqueness queries, insert/update calls) are recorded as traces in
the state.
-/

/-- Bytes of an uploaded file buffer. -/
abbrev Bytes := List Nat

/-- A JavaScript value stored in a body field or a table column:
either a string or JS `null`. -/
inductive Val where
  | str (s : String)
  | null
deriving DecidableEq, Repr

/-- A JS object / table row: association list of fields. -/
abbrev Obj := List (String × Val)

/-- Lookup of a key in an association list (first occurrence). -/
def getA {α : Type} : List (String × α) → String → Option α
  | [], _ => none
  | (k', v) :: rest, k => if k' = k then some v else getA rest k

/-- Setting a key in an association list: replaces the first occurrence
in place, or appends at the end when absent — the behaviour of JS
property assignment / spread for objects with unique keys. -/
def setA {α : Type} : List (String × α) → String → α → List (String × α)
  | [], k, v => [(k, v)]
  | (k', v') :: rest, k, v =>
      if k' = k then (k, v) :: rest else (k', v') :: setA rest k v

/-- Apply a list of key/value writes left to right. -/
def applyA {α : Type} (m : List (String × α)) (ws : List (String × α)) :
    List (String × α) :=
  ws.foldl (fun acc kv => setA acc kv.1 kv.2) m

/-- JS object spread `{...a, ...b}`. -/
def mergeObj (a b : Obj) : Obj := applyA a b

/-- The keys of an association list. -/
def keysA {α : Type} (m : List (String × α)) : List String := m.map Prod.fst

/-- The object has no duplicate keys (true of every parsed JS object). -/
def nodupKeys {α : Type} (m : List (String × α)) : Prop := (keysA m).Nodup

instance {α : Type} (m : List (String × α)) : Decidable (nodupKeys m) := by
  unfold nodupKeys; infer_instance

/-- One call to the storage client's `upload` (the options the source
passes: `upsert: true`, `contentType: "image/jpeg"`). -/
structure PutCall where
  path : String
  bytes : Bytes
  upsert : Bool
  contentType : String
deriving DecidableEq, Repr

/-- The state of the two external stores, plus traces of the observable
calls the handlers make on them. -/
structure SState where
  /-- rows of the `vendors` table, in insertion order -/
  vendors : List Obj
  /-- rows of the `bank_accounts` table, in insertion order -/
  bank_accounts : List Obj
  /-- the `photos` storage bucket: object path ↦ stored bytes -/
  photos : List (String × Bytes)
  /-- every `storage.upload` call attempted, in order -/
  uploadAttempts : List PutCall
  /-- every uniqueness pre-check query issued: (table, key field) -/
  uniqueChecks : List (String × String)
  /-- every `insert` call issued, by table -/
  insertCalls : List String
  /-- every `update` call issued, by table -/
  updateCalls : List String
deriving DecidableEq, Repr

/-- Failure nondeterminism of the external collaborators: whether a given
storage upload (by object path), select query, insert or update (by table)
fails on this run. -/
structure Oracle where
  uploadFails : String → Bool
  selectFails : String → Bool
  insertFails : String → Bool
  updateFails : String → Bool

/-- Body of an HTTP response: `res.json(x)` where `x` is a row,
`undefined` (`data[0]` of an empty array), a row list, or an error
object `{error: msg}`. -/
inductive RespBody where
  | js (row : Option Obj)
  | rows (rs : List Obj)
  | err (msg : String)
deriving DecidableEq, Repr

/-- An HTTP response: status code and JSON body. -/
structure Response where
  status : Nat
  body : RespBody
deriving DecidableEq, Repr

/-- JS template-literal stringification of a possibly-absent body field
(`${req.body.user_id}`): `undefined` and `null` print as their names. -/
def jsTemplate : Option Val → String
  | none => "undefined"
  | some .null => "null"
  | some (.str s) => s

/-- `const filePath = ${userId}/${folder}/${fileName}` (line 21). -/
def filePathOf (userId folder fileName : String) : String :=
  userId ++ "/" ++ folder ++ "/" ++ fileName

/-- Modelled collaborator behaviour: the public URL the storage client
reports for an object path (`getPublicUrl(filePath).data.publicUrl`). -/
def publicUrl (filePath : String) : String :=
  "https://supabase.example/storage/v1/object/public/photos/" ++ filePath

/-- `uploadToSupabase` (lines 20–35): derives the object path, calls
`storage.upload` with `upsert: true` and content type `image/jpeg`,
throws on error, else returns the public URL.  The attempt is recorded
in the trace whether or not it fails; on success the bucket is updated. -/
def uploadToSupabase (oc : Oracle) (st : SState) (fileBuffer : Bytes)
    (fileName userId folder : String) : Except String String × SState :=
  let filePath := filePathOf userId folder fileName
  let st1 := { st with
    uploadAttempts := st.uploadAttempts ++ [⟨filePath, fileBuffer, true, "image/jpeg"⟩] }
  if oc.uploadFails filePath then
    (.error "upload failed", st1)
  else
    (.ok (publicUrl filePath),
     { st1 with photos := setA st1.photos filePath fileBuffer })

/-- The up-to-three optional vendor photo files of a multipart request
(`req.files.personal_photo` etc., each an optional buffer). -/
structure VendorFiles where
  personal_photo : Option Bytes
  aadhar_photo : Option Bytes
  cart_photo : Option Bytes
deriving DecidableEq, Repr

/-- One conditional upload block
(`if (req.files.X) photoUrls.X = await uploadToSupabase(...)`). -/
def uploadSlotOpt (oc : Oracle) (slotName fileName folder userId : String)
    (file : Option Bytes) (photoUrls : Obj) (st : SState) :
    Except String Obj × SState :=
  match file with
  | none => (.ok photoUrls, st)
  | some buf =>
    match uploadToSupabase oc st buf fileName userId folder with
    | (.error e, st1) => (.error e, st1)
    | (.ok url, st1) => (.ok (setA photoUrls slotName (.str url)), st1)

/-- The sequential photo-upload phase of the vendor create/update handlers
(lines 67–92 and 139–163: three conditional uploads in order, building
`photoUrls`; a thrown upload error aborts the rest). -/
def uploadVendorPhotos (oc : Oracle) (userId : String) (files : VendorFiles)
    (st : SState) : Except String Obj × SState :=
  match uploadSlotOpt oc "personal_photo" "personal.jpg" "vendor" userId
      files.personal_photo [] st with
  | (.error e, st1) => (.error e, st1)
  | (.ok u1, st1) =>
    match uploadSlotOpt oc "aadhar_photo" "aadhar.jpg" "vendor" userId
        files.aadhar_photo u1 st1 with
    | (.error e, st2) => (.error e, st2)
    | (.ok u2, st2) =>
      uploadSlotOpt oc "cart_photo" "cart.jpg" "vendor" userId
        files.cart_photo u2 st2

/-- Modelled collaborator behaviour: supabase `.maybeSingle()` — `ok none`
on zero rows, the row on exactly one, an error on more than one. -/
def maybeSingle (rows : List Obj) : Except String (Option Obj) :=
  match rows with
  | [] => .ok none
  | [r] => .ok (some r)
  | _ => .error "JSON object requested, multiple rows returned"

/-- Modelled collaborator behaviour: supabase `.single()` — errors unless
exactly one row is returned (in particular on zero rows). -/
def single (rows : List Obj) : Except String Obj :=
  match rows with
  | [r] => .ok r
  | _ => .error "JSON object requested, multiple (or no) rows returned"

/-- `POST /vendors` (lines 42–106): duplicate-phone pre-check via
`.eq("phone", phone).maybeSingle()`, then the three conditional photo
uploads, then `insert([{...req.body, ...photoUrls}]).select()`. -/
def postVendors (oc : Oracle) (body : Obj) (files : VendorFiles)
    (st : SState) : Response × SState :=
  let userId := jsTemplate (getA body "user_id")
  let phone := getA body "phone"
  let st := { st with uniqueChecks := st.uniqueChecks ++ [("vendors", "phone")] }
  if oc.selectFails "vendors" then (⟨400, .err "select failed"⟩, st)
  else
    match maybeSingle (st.vendors.filter (fun r => decide (getA r "phone" = phone))) with
    | .error e => (⟨400, .err e⟩, st)
    | .ok (some _) =>
        (⟨400, .err "Phone number already exists for another vendor"⟩, st)
    | .ok none =>
      match uploadVendorPhotos oc userId files st with
      | (.error e, st) => (⟨500, .err e⟩, st)
      | (.ok photoUrls, st) =>
        let st := { st with insertCalls := st.insertCalls ++ ["vendors"] }
        if oc.insertFails "vendors" then (⟨400, .err "insert failed"⟩, st)
        else
          let newRow := mergeObj body photoUrls
          (⟨200, .js (some newRow)⟩,
           { st with vendors := st.vendors ++ [newRow] })

/-- `GET /vendors/:user_id` (lines 116–125): `.eq("user_id", id).single()`;
any store error (including the zero-row single error) becomes a 400. -/
def getVendorByUserId (oc : Oracle) (user_id : String) (st : SState) :
    Response × SState :=
  if oc.selectFails "vendors" then (⟨400, .err "select failed"⟩, st)
  else
    match single (st.vendors.filter
        (fun r => decide (getA r "user_id" = some (Val.str user_id)))) with
    | .error e => (⟨400, .err e⟩, st)
    | .ok r => (⟨200, .js (some r)⟩, st)

/-- `PUT /vendors/:user_id` (lines 128–177): the three conditional photo
uploads (no uniqueness check), then
`.update({...req.body, ...photoUrls}).eq("user_id", user_id).select()`;
responds with `data[0]` (which is `undefined` when no row matched). -/
def putVendors (oc : Oracle) (user_id : String) (body : Obj)
    (files : VendorFiles) (st : SState) : Response × SState :=
  match uploadVendorPhotos oc user_id files st with
  | (.error e, st) => (⟨500, .err e⟩, st)
  | (.ok photoUrls, st) =>
    let patch := mergeObj body photoUrls
    let st := { st with updateCalls := st.updateCalls ++ ["vendors"] }
    if oc.updateFails "vendors" then (⟨400, .err "update failed"⟩, st)
    else
      let isTarget := fun r => decide (getA r "user_id" = some (Val.str user_id))
      let data := (st.vendors.filter isTarget).map (fun r => mergeObj r patch)
      (⟨200, .js data.head?⟩,
       { st with vendors :=
          st.vendors.map (fun r => if isTarget r then mergeObj r patch else r) })

/-- `POST /bank-accounts` (lines 185–229): duplicate-account_number
pre-check, single optional passbook upload, then
`insert([{...req.body, passbook_photo: photoUrl}]).select()` — the
`passbook_photo` column is set explicitly, to the URL or to `null`. -/
def postBankAccounts (oc : Oracle) (body : Obj) (file : Option Bytes)
    (st : SState) : Response × SState :=
  let userId := jsTemplate (getA body "user_id")
  let accountNumber := getA body "account_number"
  let st := { st with
    uniqueChecks := st.uniqueChecks ++ [("bank_accounts", "account_number")] }
  if oc.selectFails "bank_accounts" then (⟨400, .err "select failed"⟩, st)
  else
    match maybeSingle (st.bank_accounts.filter
        (fun r => decide (getA r "account_number" = accountNumber))) with
    | .error e => (⟨400, .err e⟩, st)
    | .ok (some _) => (⟨400, .err "Account number already exists"⟩, st)
    | .ok none =>
      match (match file with
             | none => ((.ok none : Except String (Option String)), st)
             | some buf =>
               match uploadToSupabase oc st buf "passbook.jpg" userId "bank" with
               | (.error e, st1) => (.error e, st1)
               | (.ok url, st1) => (.ok (some url), st1)) with
      | (.error e, st) => (⟨500, .err e⟩, st)
      | (.ok photoUrl, st) =>
        let st := { st with insertCalls := st.insertCalls ++ ["bank_accounts"] }
        if oc.insertFails "bank_accounts" then (⟨400, .err "insert failed"⟩, st)
        else
          let newRow := setA body "passbook_photo"
            (match photoUrl with | some u => Val.str u | none => Val.null)
          (⟨200, .js (some newRow)⟩,
           { st with bank_accounts := st.bank_accounts ++ [newRow] })

/-- `GET /bank-accounts/:user_id` (lines 239–248). -/
def getBankAccountByUserId (oc : Oracle) (user_id : String) (st : SState) :
    Response × SState :=
  if oc.selectFails "bank_accounts" then (⟨400, .err "select failed"⟩, st)
  else
    match single (st.bank_accounts.filter
        (fun r => decide (getA r "user_id" = some (Val.str user_id)))) with
    | .error e => (⟨400, .err e⟩, st)
    | .ok r => (⟨200, .js (some r)⟩, st)

/-- `PUT /bank-accounts/:user_id` (lines 251–280): optional passbook
upload, then `.update({...req.body, ...(photoUrl && {passbook_photo:
photoUrl})})`.  `photoUrl` is `null` or a (nonempty) public URL, so the
JS truthiness test is exactly non-nullness. -/
def putBankAccounts (oc : Oracle) (user_id : String) (body : Obj)
    (file : Option Bytes) (st : SState) : Response × SState :=
  match (match file with
         | none => ((.ok none : Except String (Option String)), st)
         | some buf =>
           match uploadToSupabase oc st buf "passbook.jpg" user_id "bank" with
           | (.error e, st1) => (.error e, st1)
           | (.ok url, st1) => (.ok (some url), st1)) with
  | (.error e, st) => (⟨500, .err e⟩, st)
  | (.ok photoUrl, st) =>
    let patch := match photoUrl with
      | some u => setA body "passbook_photo" (Val.str u)
      | none => body
    let st := { st with updateCalls := st.updateCalls ++ ["bank_accounts"] }
    if oc.updateFails "bank_accounts" then (⟨400, .err "update failed"⟩, st)
    else
      let isTarget := fun r => decide (getA r "user_id" = some (Val.str user_id))
      let data := (st.bank_accounts.filter isTarget).map (fun r => mergeObj r patch)
      (⟨200, .js data.head?⟩,
       { st with bank_accounts :=
          st.bank_accounts.map (fun r => if isTarget r then mergeObj r patch else r) })

/-! ### Association-list lemmas -/

theorem getA_setA_self {α : Type} : ∀ (m : List (String × α)) (k : String) (v : α),
    getA (setA m k v) k = some v
  | [], k, v => by simp [setA, getA]
  | (k', v') :: rest, k, v => by
    by_cases h : k' = k
    · simp [setA, getA, h]
    · simp [setA, getA, h, getA_setA_self rest k v]

theorem getA_setA_ne {α : Type} {k k' : String} (h : k' ≠ k) :
    ∀ (m : List (String × α)) (v : α), getA (setA m k v) k' = getA m k'
  | [], v => by simp [setA, getA, Ne.symm h]
  | (k'', v'') :: rest, v => by
    by_cases hk : k'' = k
    · subst hk
      simp [setA, getA, Ne.symm h]
    · by_cases hk' : k'' = k'
      · subst hk'
        simp [setA, getA, h]
      · simp [setA, getA, hk, hk', getA_setA_ne h rest v]

theorem setA_eq_of_getA {α : Type} :
    ∀ {m : List (String × α)} {k : String} {v : α}, getA m k = some v → setA m k v = m
  | [], k, v, h => by simp [getA] at h
  | (k', v') :: rest, k, v, h => by
    by_cases hk : k' = k
    · subst hk
      simp [getA] at h
      simp [setA, h]
    · simp [getA, hk] at h
      simp [setA, hk, setA_eq_of_getA h]

theorem getA_eq_none_iff {α : Type} :
    ∀ (m : List (String × α)) (k : String), getA m k = none ↔ k ∉ keysA m
  | [], k => by simp [getA, keysA]
  | (k', v') :: rest, k => by
    by_cases hk : k' = k
    · simp [getA, keysA, hk]
    · simp [getA, keysA, hk, Ne.symm hk, getA_eq_none_iff rest k]

theorem mem_keysA_setA {α : Type} (x k : String) (v : α) :
    ∀ m : List (String × α), x ∈ keysA (setA m k v) ↔ x ∈ keysA m ∨ x = k
  | [] => by simp [setA, keysA]
  | (k', v') :: rest => by
    by_cases hk : k' = k
    · subst hk
      have hset : setA ((k', v') :: rest) k' v = (k', v) :: rest := by simp [setA]
      rw [hset]
      simp only [keysA, List.map_cons, List.mem_cons]
      tauto
    · simp only [setA, if_neg hk, keysA, List.map_cons, List.mem_cons]
      rw [show List.map Prod.fst (setA rest k v) = keysA (setA rest k v) from rfl,
        mem_keysA_setA x k v rest]
      simp [keysA]
      tauto

theorem nodupKeys_setA {α : Type} :
    ∀ {m : List (String × α)}, nodupKeys m → ∀ (k : String) (v : α),
      nodupKeys (setA m k v)
  | [], _, k, v => by simp [setA, nodupKeys, keysA]
  | (k', v') :: rest, h, k, v => by
    have h' : k' ∉ keysA rest ∧ nodupKeys rest := by
      simpa [nodupKeys, keysA, List.nodup_cons] using h
    by_cases hk : k' = k
    · subst hk
      simpa [setA, nodupKeys, keysA, List.nodup_cons] using h
    · simp only [setA, if_neg hk, nodupKeys, keysA, List.map_cons, List.nodup_cons]
      constructor
      · intro hmem
        rcases (mem_keysA_setA k' k v rest).mp hmem with h1 | h1
        · exact h'.1 h1
        · exact hk h1
      · exact nodupKeys_setA h'.2 k v

theorem applyA_cons {α : Type} (m : List (String × α)) (k : String) (v : α)
    (ws : List (String × α)) :
    applyA m ((k, v) :: ws) = applyA (setA m k v) ws := rfl

theorem getA_applyA_of_not_mem {α : Type} :
    ∀ {ws : List (String × α)} (m : List (String × α)) {k : String},
      k ∉ keysA ws → getA (applyA m ws) k = getA m k
  | [], m, k, _ => rfl
  | (k', v') :: rest, m, k, h => by
    simp only [keysA, List.map_cons, List.mem_cons] at h
    push_neg at h
    rw [applyA_cons, getA_applyA_of_not_mem (setA m k' v') h.2,
      getA_setA_ne h.1]

theorem getA_applyA_mem {α : Type} :
    ∀ {ws : List (String × α)} (m : List (String × α)) {k : String} {v : α},
      (keysA ws).Nodup → (k, v) ∈ ws → getA (applyA m ws) k = some v
  | [], m, k, v, _, hmem => by simp at hmem
  | (k', v') :: rest, m, k, v, hnd, hmem => by
    simp only [keysA, List.map_cons, List.nodup_cons] at hnd
    rcases List.mem_cons.mp hmem with heq | hmem'
    · obtain ⟨hk, hv⟩ := Prod.mk.injEq .. ▸ heq
      subst hk; subst hv
      rw [applyA_cons, getA_applyA_of_not_mem (setA m k v) hnd.1,
        getA_setA_self]
    · exact applyA_cons .. ▸ getA_applyA_mem (setA m k' v') hnd.2 hmem'

theorem applyA_eq_self {α : Type} :
    ∀ {ws : List (String × α)} (m : List (String × α)),
      (∀ p ∈ ws, getA m p.1 = some p.2) → applyA m ws = m
  | [], m, _ => rfl
  | (k', v') :: rest, m, h => by
    rw [applyA_cons, setA_eq_of_getA (h (k', v') (by simp))]
    exact applyA_eq_self m fun p hp => h p (by simp [hp])

theorem applyA_applyA {α : Type} {ws : List (String × α)}
    (hnd : (keysA ws).Nodup) (m : List (String × α)) :
    applyA (applyA m ws) ws = applyA m ws :=
  applyA_eq_self (applyA m ws) fun _ hp => getA_applyA_mem m hnd hp

theorem nodupKeys_applyA {α : Type} :
    ∀ (ws : List (String × α)) {m : List (String × α)},
      nodupKeys m → nodupKeys (applyA m ws)
  | [], _, h => h
  | (k', v') :: rest, _, h =>
    applyA_cons .. ▸ nodupKeys_applyA rest (nodupKeys_setA h k' v')

/-- JS spread twice with the same (unique-keyed) object is idempotent. -/
theorem mergeObj_idem {a b : Obj} (hnd : nodupKeys b) :
    mergeObj (mergeObj a b) b = mergeObj a b :=
  applyA_applyA hnd a

theorem getA_mergeObj_of_none {a b : Obj} {k : String} (h : getA b k = none) :
    getA (mergeObj a b) k = getA a k :=
  getA_applyA_of_not_mem a ((getA_eq_none_iff b k).mp h)

theorem getA_mergeObj_mem {a b : Obj} {k : String} {v : Val}
    (hnd : nodupKeys b) (hmem : (k, v) ∈ b) :
    getA (mergeObj a b) k = some v :=
  getA_applyA_mem a hnd hmem

theorem mergeObj_singleton (a : Obj) (k : String) (v : Val) :
    mergeObj a [(k, v)] = setA a k v := rfl

theorem mergeObj_nil (a : Obj) : mergeObj a [] = a := rfl

/-! ### Object-path distinctness -/

theorem filePathOf_ne_of_name_length {uid folder a b : String}
    (h : a.length ≠ b.length) : filePathOf uid folder a ≠ filePathOf uid folder b := by
  intro he
  apply h
  have hl := congrArg String.length he
  simp only [filePathOf, String.length_append] at hl
  omega

theorem vendorPath_pa_ne (uid : String) :
    filePathOf uid "vendor" "personal.jpg" ≠ filePathOf uid "vendor" "aadhar.jpg" :=
  filePathOf_ne_of_name_length (by decide)

theorem vendorPath_pc_ne (uid : String) :
    filePathOf uid "vendor" "personal.jpg" ≠ filePathOf uid "vendor" "cart.jpg" :=
  filePathOf_ne_of_name_length (by decide)

theorem vendorPath_ac_ne (uid : String) :
    filePathOf uid "vendor" "aadhar.jpg" ≠ filePathOf uid "vendor" "cart.jpg" :=
  filePathOf_ne_of_name_length (by decide)

/-! ### A pure mirror of the vendor upload phase

`uploadVendorPhotos` threads the store state through three conditional
uploads.  Because the oracle's failure decisions depend only on the object
path, the returned `photoUrls` (or error), and the list of blob writes the
phase performs, are functions of the request alone; `vendorResult` and
`vendorWrites` compute them directly, and
`uploadVendorPhotos_spec` proves the correspondence. -/

/-- Whether the conditional upload for one slot aborts the handler. -/
def slotFails (oc : Oracle) (path : String) : Option Bytes → Bool
  | none => false
  | some _ => oc.uploadFails path

/-- The blob write one slot's conditional upload performs (none if the slot
is absent or its upload fails). -/
def slotWrite (oc : Oracle) (path : String) : Option Bytes → List (String × Bytes)
  | none => []
  | some b => if oc.uploadFails path then [] else [(path, b)]

/-- How one slot's conditional upload extends `photoUrls`. -/
def slotUrls (oc : Oracle) (path slotName : String) (file : Option Bytes)
    (u : Obj) : Obj :=
  match file with
  | none => u
  | some _ =>
    if oc.uploadFails path then u
    else setA u slotName (Val.str (publicUrl path))

/-- The `photoUrls` object (or upload error) the vendor upload phase
produces, as a function of the request. -/
def vendorResult (oc : Oracle) (uid : String) (files : VendorFiles) :
    Except String Obj :=
  if slotFails oc (filePathOf uid "vendor" "personal.jpg") files.personal_photo then
    .error "upload failed"
  else
    let u1 := slotUrls oc (filePathOf uid "vendor" "personal.jpg") "personal_photo"
      files.personal_photo []
    if slotFails oc (filePathOf uid "vendor" "aadhar.jpg") files.aadhar_photo then
      .error "upload failed"
    else
      let u2 := slotUrls oc (filePathOf uid "vendor" "aadhar.jpg") "aadhar_photo"
        files.aadhar_photo u1
      if slotFails oc (filePathOf uid "vendor" "cart.jpg") files.cart_photo then
        .error "upload failed"
      else
        .ok (slotUrls oc (filePathOf uid "vendor" "cart.jpg") "cart_photo"
          files.cart_photo u2)

/-- The blob writes the vendor upload phase performs, in order (slots after
the first failing one are not attempted). -/
def vendorWrites (oc : Oracle) (uid : String) (files : VendorFiles) :
    List (String × Bytes) :=
  if slotFails oc (filePathOf uid "vendor" "personal.jpg") files.personal_photo then []
  else
    slotWrite oc (filePathOf uid "vendor" "personal.jpg") files.personal_photo ++
      (if slotFails oc (filePathOf uid "vendor" "aadhar.jpg") files.aadhar_photo then []
       else
         slotWrite oc (filePathOf uid "vendor" "aadhar.jpg") files.aadhar_photo ++
           (if slotFails oc (filePathOf uid "vendor" "cart.jpg") files.cart_photo then []
            else slotWrite oc (filePathOf uid "vendor" "cart.jpg") files.cart_photo))

/-- Correspondence of the stateful upload phase with its pure mirror, and
the frame: the upload phase touches only the blob store and the
upload-attempt trace. -/
theorem uploadVendorPhotos_spec (oc : Oracle) (uid : String)
    (files : VendorFiles) (st : SState) :
    (uploadVendorPhotos oc uid files st).1 = vendorResult oc uid files ∧
    ((uploadVendorPhotos oc uid files st).2).photos
      = applyA st.photos (vendorWrites oc uid files) ∧
    ((uploadVendorPhotos oc uid files st).2).vendors = st.vendors ∧
    ((uploadVendorPhotos oc uid files st).2).bank_accounts = st.bank_accounts ∧
    ((uploadVendorPhotos oc uid files st).2).uniqueChecks = st.uniqueChecks ∧
    ((uploadVendorPhotos oc uid files st).2).insertCalls = st.insertCalls ∧
    ((uploadVendorPhotos oc uid files st).2).updateCalls = st.updateCalls := by
  obtain ⟨fp, fa, fc⟩ := files
  cases fp <;> cases fa <;> cases fc <;>
    simp only [uploadVendorPhotos, uploadSlotOpt, uploadToSupabase, vendorResult,
      vendorWrites, slotFails, slotWrite, slotUrls, applyA, List.foldl] <;>
    split_ifs <;>
    simp_all [applyA]

theorem list_map_self {α : Type} {f : α → α} {l : List α}
    (h : ∀ a ∈ l, f a = a) : l.map f = l :=
  (List.map_congr_left h).trans (List.map_id l)

theorem getA_slotUrls_ne {k slotName : String} (h : k ≠ slotName)
    (oc : Oracle) (path : String) (file : Option Bytes) (u : Obj) :
    getA (slotUrls oc path slotName file u) k = getA u k := by
  cases file with
  | none => rfl
  | some b =>
    simp only [slotUrls]
    split_ifs with hf
    · rfl
    · exact getA_setA_ne h u _

theorem nodupKeys_slotUrls {u : Obj} (h : nodupKeys u) (oc : Oracle)
    (path slotName : String) (file : Option Bytes) :
    nodupKeys (slotUrls oc path slotName file u) := by
  cases file with
  | none => exact h
  | some b =>
    simp only [slotUrls]
    split_ifs with hf
    · exact h
    · exact nodupKeys_setA h _ _

theorem vendorResult_ok_nodup {oc : Oracle} {uid : String} {files : VendorFiles}
    {u : Obj} (h : vendorResult oc uid files = .ok u) : nodupKeys u := by
  simp only [vendorResult] at h
  split_ifs at h
  all_goals cases h
  all_goals
    exact nodupKeys_slotUrls (nodupKeys_slotUrls (nodupKeys_slotUrls
      (by simp [nodupKeys, keysA]) oc _ _ _) oc _ _ _) oc _ _ _

theorem vendorWrites_nodupKeys (oc : Oracle) (uid : String) (files : VendorFiles) :
    (keysA (vendorWrites oc uid files)).Nodup := by
  obtain ⟨fp, fa, fc⟩ := files
  cases fp <;> cases fa <;> cases fc <;>
    simp only [vendorWrites, slotFails, slotWrite] <;>
    split_ifs <;>
    simp_all [keysA, vendorPath_pa_ne uid, vendorPath_pc_ne uid, vendorPath_ac_ne uid]

/-- The row-patching function the `update ... .eq("user_id", uid)` call
applies to the table is idempotent (for a unique-keyed patch). -/
theorem map_update_idem {patch : Obj} (hnd : nodupKeys patch) (uid : String)
    (l : List Obj) :
    ((l.map (fun r => if decide (getA r "user_id" = some (Val.str uid))
        then mergeObj r patch else r)).map
      (fun r => if decide (getA r "user_id" = some (Val.str uid))
        then mergeObj r patch else r))
    = l.map (fun r => if decide (getA r "user_id" = some (Val.str uid))
        then mergeObj r patch else r) := by
  rw [List.map_map]
  apply List.map_congr_left
  intro r _
  by_cases h : getA r "user_id" = some (Val.str uid)
  · by_cases h2 : getA (mergeObj r patch) "user_id" = some (Val.str uid) <;>
      simp [Function.comp, h, h2, mergeObj_idem hnd]
  · simp [Function.comp, h]

/-- Full characterization of `PUT /vendors/:user_id`: response, table, blob
store and traces, in terms of the pure mirror of the upload phase. -/
theorem putVendors_state (oc : Oracle) (uid : String) (body : Obj)
    (files : VendorFiles) (st : SState) :
    ((putVendors oc uid body files st).2).photos
      = applyA st.photos (vendorWrites oc uid files) ∧
    ((putVendors oc uid body files st).2).bank_accounts = st.bank_accounts ∧
    ((putVendors oc uid body files st).2).uniqueChecks = st.uniqueChecks ∧
    ((putVendors oc uid body files st).2).insertCalls = st.insertCalls ∧
    ((putVendors oc uid body files st).2).updateCalls
      = (match vendorResult oc uid files with
         | .error _ => st.updateCalls
         | .ok _ => st.updateCalls ++ ["vendors"]) ∧
    ((putVendors oc uid body files st).2).vendors
      = (match vendorResult oc uid files with
         | .error _ => st.vendors
         | .ok u =>
           if oc.updateFails "vendors" then st.vendors
           else st.vendors.map (fun r =>
             if decide (getA r "user_id" = some (Val.str uid))
             then mergeObj r (mergeObj body u) else r)) ∧
    (putVendors oc uid body files st).1
      = (match vendorResult oc uid files with
         | .error e => ⟨500, .err e⟩
         | .ok u =>
           if oc.updateFails "vendors" then ⟨400, .err "update failed"⟩
           else ⟨200, .js (((st.vendors.filter (fun r =>
             decide (getA r "user_id" = some (Val.str uid)))).map
               (fun r => mergeObj r (mergeObj body u))).head?)⟩) := by
  obtain ⟨hres, hph, hv, hba, huc, hic, hupd⟩ :=
    uploadVendorPhotos_spec oc uid files st
  rcases hrun : uploadVendorPhotos oc uid files st with ⟨res, st1⟩
  rw [hrun] at hres hph hv hba huc hic hupd
  simp only at hres hph hv hba huc hic hupd
  cases res with
  | error e =>
    simp only [putVendors, hrun, ← hres]
    simp [hph, hv, hba, huc, hic, hupd]
  | ok u =>
    simp only [putVendors, hrun, ← hres]
    split_ifs with hu <;> simp [hph, hv, hba, huc, hic, hupd, hu]

/-- The upload outcome of the single optional passbook slot, as a function
of the request (`photoUrl` in the source: `null`, a URL, or a thrown
error). -/
def bankResult (oc : Oracle) (uid : String) (file : Option Bytes) :
    Except String (Option String) :=
  match file with
  | none => .ok none
  | some _ =>
    if oc.uploadFails (filePathOf uid "bank" "passbook.jpg") then
      .error "upload failed"
    else .ok (some (publicUrl (filePathOf uid "bank" "passbook.jpg")))

/-- The blob writes of the passbook upload. -/
def bankWrites (oc : Oracle) (uid : String) (file : Option Bytes) :
    List (String × Bytes) :=
  slotWrite oc (filePathOf uid "bank" "passbook.jpg") file

/-- The patch `{...req.body, ...(photoUrl && {passbook_photo: photoUrl})}`
of the bank-account update. -/
def bankPatch (body : Obj) : Option String → Obj
  | some u => setA body "passbook_photo" (Val.str u)
  | none => body

/-- Full characterization of `PUT /bank-accounts/:user_id`. -/
theorem putBankAccounts_state (oc : Oracle) (uid : String) (body : Obj)
    (file : Option Bytes) (st : SState) :
    ((putBankAccounts oc uid body file st).2).photos
      = applyA st.photos (bankWrites oc uid file) ∧
    ((putBankAccounts oc uid body file st).2).vendors = st.vendors ∧
    ((putBankAccounts oc uid body file st).2).uniqueChecks = st.uniqueChecks ∧
    ((putBankAccounts oc uid body file st).2).insertCalls = st.insertCalls ∧
    ((putBankAccounts oc uid body file st).2).updateCalls
      = (match bankResult oc uid file with
         | .error _ => st.updateCalls
         | .ok _ => st.updateCalls ++ ["bank_accounts"]) ∧
    ((putBankAccounts oc uid body file st).2).bank_accounts
      = (match bankResult oc uid file with
         | .error _ => st.bank_accounts
         | .ok pu =>
           if oc.updateFails "bank_accounts" then st.bank_accounts
           else st.bank_accounts.map (fun r =>
             if decide (getA r "user_id" = some (Val.str uid))
             then mergeObj r (bankPatch body pu) else r)) ∧
    (putBankAccounts oc uid body file st).1
      = (match bankResult oc uid file with
         | .error e => ⟨500, .err e⟩
         | .ok pu =>
           if oc.updateFails "bank_accounts" then ⟨400, .err "update failed"⟩
           else ⟨200, .js (((st.bank_accounts.filter (fun r =>
             decide (getA r "user_id" = some (Val.str uid)))).map
               (fun r => mergeObj r (bankPatch body pu))).head?)⟩) := by
  cases file with
  | none =>
    simp only [putBankAccounts, bankResult, bankWrites, slotWrite, bankPatch]
    split_ifs with hu <;> simp [applyA, hu]
  | some buf =>
    simp only [putBankAccounts, bankResult, bankWrites, slotWrite, bankPatch,
      uploadToSupabase]
    split_ifs with hf hu <;> simp_all [applyA]

/-! ### Claim theorems -/

/-- An oracle on which every collaborator call succeeds. -/
def okOracle : Oracle := ⟨fun _ => false, fun _ => false, fun _ => false, fun _ => false⟩

/-- A sample store holding one vendor (phone 9999999999) and one bank
account (account number ACC1), both owned by user u1, used as a witness
state. -/
def stW : SState :=
  ⟨[[("user_id", Val.str "u1"), ("phone", Val.str "9999999999")]],
   [[("user_id", Val.str "u1"), ("account_number", Val.str "ACC1")]],
   [], [], [], [], []⟩

/-- C1: a create request (vendor or bank account) whose natural-key value
(phone, account_number respectively) already matches an existing row
terminates with HTTP 400 — the duplicate-key message when the match is
unique — and performs no upload attempt and no insert (tables, bucket,
upload trace and insert trace are all unchanged). -/
theorem create_duplicate_key_aborts
    (oc : Oracle) (st : SState) (bodyV : Obj) (filesV : VendorFiles)
    (bodyB : Obj) (fileB : Option Bytes)
    (hV : st.vendors.filter
      (fun r => decide (getA r "phone" = getA bodyV "phone")) ≠ [])
    (hB : st.bank_accounts.filter
      (fun r => decide (getA r "account_number" = getA bodyB "account_number")) ≠ []) :
    ((postVendors oc bodyV filesV st).1.status = 400 ∧
     ((postVendors oc bodyV filesV st).2).vendors = st.vendors ∧
     ((postVendors oc bodyV filesV st).2).photos = st.photos ∧
     ((postVendors oc bodyV filesV st).2).uploadAttempts = st.uploadAttempts ∧
     ((postVendors oc bodyV filesV st).2).insertCalls = st.insertCalls) ∧
    (oc.selectFails "vendors" = false →
      (st.vendors.filter
        (fun r => decide (getA r "phone" = getA bodyV "phone"))).length = 1 →
      (postVendors oc bodyV filesV st).1.body
        = .err "Phone number already exists for another vendor") ∧
    ((postBankAccounts oc bodyB fileB st).1.status = 400 ∧
     ((postBankAccounts oc bodyB fileB st).2).bank_accounts = st.bank_accounts ∧
     ((postBankAccounts oc bodyB fileB st).2).photos = st.photos ∧
     ((postBankAccounts oc bodyB fileB st).2).uploadAttempts = st.uploadAttempts ∧
     ((postBankAccounts oc bodyB fileB st).2).insertCalls = st.insertCalls) ∧
    (oc.selectFails "bank_accounts" = false →
      (st.bank_accounts.filter
        (fun r => decide (getA r "account_number" = getA bodyB "account_number"))).length = 1 →
      (postBankAccounts oc bodyB fileB st).1.body
        = .err "Account number already exists") := by
  refine ⟨?_, ?_, ?_, ?_⟩
  · by_cases hs : oc.selectFails "vendors"
    · simp [postVendors, hs]
    · rcases hfil : st.vendors.filter
        (fun r => decide (getA r "phone" = getA bodyV "phone")) with _ | ⟨r, rest⟩
      · exact absurd hfil hV
      · cases rest <;> simp [postVendors, hs, hfil, maybeSingle]
  · intro hs hlen
    rcases hfil : st.vendors.filter
      (fun r => decide (getA r "phone" = getA bodyV "phone")) with _ | ⟨r, rest⟩
    · exact absurd hfil hV
    · rw [hfil] at hlen
      cases rest with
      | nil => simp [postVendors, hs, hfil, maybeSingle]
      | cons r2 rest2 => simp at hlen
  · by_cases hs : oc.selectFails "bank_accounts"
    · simp [postBankAccounts, hs]
    · rcases hfil : st.bank_accounts.filter
        (fun r => decide (getA r "account_number" = getA bodyB "account_number"))
        with _ | ⟨r, rest⟩
      · exact absurd hfil hB
      · cases rest <;> simp [postBankAccounts, hs, hfil, maybeSingle]
  · intro hs hlen
    rcases hfil : st.bank_accounts.filter
      (fun r => decide (getA r "account_number" = getA bodyB "account_number"))
      with _ | ⟨r, rest⟩
    · exact absurd hfil hB
    · rw [hfil] at hlen
      cases rest with
      | nil => simp [postBankAccounts, hs, hfil, maybeSingle]
      | cons r2 rest2 => simp at hlen

/-- C1 witness: the hypotheses and conclusions of
`create_duplicate_key_aborts` hold at a concrete duplicate request. -/
theorem create_duplicate_key_aborts_witness :
    (stW.vendors.filter (fun r => decide (getA r "phone"
      = getA [("user_id", Val.str "u2"), ("phone", Val.str "9999999999")] "phone")) ≠ []) ∧
    (postVendors okOracle [("user_id", Val.str "u2"), ("phone", Val.str "9999999999")]
      ⟨none, none, none⟩ stW).1.status = 400 ∧
    (postVendors okOracle [("user_id", Val.str "u2"), ("phone", Val.str "9999999999")]
      ⟨none, none, none⟩ stW).1.body
      = .err "Phone number already exists for another vendor" ∧
    ((postVendors okOracle [("user_id", Val.str "u2"), ("phone", Val.str "9999999999")]
      ⟨none, none, none⟩ stW).2).vendors = stW.vendors ∧
    ((postVendors okOracle [("user_id", Val.str "u2"), ("phone", Val.str "9999999999")]
      ⟨none, none, none⟩ stW).2).uploadAttempts = stW.uploadAttempts ∧
    (postBankAccounts okOracle [("user_id", Val.str "u2"), ("account_number", Val.str "ACC1")]
      none stW).1.status = 400 ∧
    (postBankAccounts okOracle [("user_id", Val.str "u2"), ("account_number", Val.str "ACC1")]
      none stW).1.body = .err "Account number already exists" := by
  have h := create_duplicate_key_aborts okOracle stW
    [("user_id", Val.str "u2"), ("phone", Val.str "9999999999")] ⟨none, none, none⟩
    [("user_id", Val.str "u2"), ("account_number", Val.str "ACC1")] none
    (by decide) (by decide)
  exact ⟨by decide, h.1.1, h.2.1 (by decide) (by decide), h.1.2.1, h.1.2.2.2.1,
    h.2.2.1.1, h.2.2.2 (by decide) (by decide)⟩

/-- Full characterization of `POST /vendors` when the uniqueness query
succeeds and finds no conflicting row. -/
theorem postVendors_state (oc : Oracle) (body : Obj) (files : VendorFiles)
    (st : SState)
    (hs : oc.selectFails "vendors" = false)
    (hd : st.vendors.filter
      (fun r => decide (getA r "phone" = getA body "phone")) = []) :
    ((postVendors oc body files st).2).photos
      = applyA st.photos (vendorWrites oc (jsTemplate (getA body "user_id")) files) ∧
    ((postVendors oc body files st).2).bank_accounts = st.bank_accounts ∧
    ((postVendors oc body files st).2).uniqueChecks
      = st.uniqueChecks ++ [("vendors", "phone")] ∧
    ((postVendors oc body files st).2).updateCalls = st.updateCalls ∧
    ((postVendors oc body files st).2).insertCalls
      = (match vendorResult oc (jsTemplate (getA body "user_id")) files with
         | .error _ => st.insertCalls
         | .ok _ => st.insertCalls ++ ["vendors"]) ∧
    ((postVendors oc body files st).2).vendors
      = (match vendorResult oc (jsTemplate (getA body "user_id")) files with
         | .error _ => st.vendors
         | .ok u =>
           if oc.insertFails "vendors" then st.vendors
           else st.vendors ++ [mergeObj body u]) ∧
    (postVendors oc body files st).1
      = (match vendorResult oc (jsTemplate (getA body "user_id")) files with
         | .error e => ⟨500, .err e⟩
         | .ok u =>
           if oc.insertFails "vendors" then ⟨400, .err "insert failed"⟩
           else ⟨200, .js (some (mergeObj body u))⟩) := by
  obtain ⟨hres, hph, hv, hba, huc, hic, hupd⟩ :=
    uploadVendorPhotos_spec oc (jsTemplate (getA body "user_id")) files
      { st with uniqueChecks := st.uniqueChecks ++ [("vendors", "phone")] }
  rcases hrun : uploadVendorPhotos oc (jsTemplate (getA body "user_id")) files
    { st with uniqueChecks := st.uniqueChecks ++ [("vendors", "phone")] }
    with ⟨res, st1⟩
  rw [hrun] at hres hph hv hba huc hic hupd
  simp only at hres hph hv hba huc hic hupd
  cases res with
  | error e =>
    simp only [postVendors, hs, Bool.false_eq_true, if_false, hd, maybeSingle,
      hrun, ← hres]
    simp [hph, hv, hba, huc, hic, hupd]
  | ok u =>
    simp only [postVendors, hs, Bool.false_eq_true, if_false, hd, maybeSingle,
      hrun, ← hres]
    split_ifs with hi <;> simp [hph, hv, hba, huc, hic, hupd, hi]

/-- Full characterization of `POST /bank-accounts` when the uniqueness
query succeeds and finds no conflicting row. -/
theorem postBankAccounts_state (oc : Oracle) (body : Obj) (file : Option Bytes)
    (st : SState)
    (hs : oc.selectFails "bank_accounts" = false)
    (hd : st.bank_accounts.filter
      (fun r => decide (getA r "account_number" = getA body "account_number")) = []) :
    ((postBankAccounts oc body file st).2).photos
      = applyA st.photos (bankWrites oc (jsTemplate (getA body "user_id")) file) ∧
    ((postBankAccounts oc body file st).2).vendors = st.vendors ∧
    ((postBankAccounts oc body file st).2).uniqueChecks
      = st.uniqueChecks ++ [("bank_accounts", "account_number")] ∧
    ((postBankAccounts oc body file st).2).updateCalls = st.updateCalls ∧
    ((postBankAccounts oc body file st).2).insertCalls
      = (match bankResult oc (jsTemplate (getA body "user_id")) file with
         | .error _ => st.insertCalls
         | .ok _ => st.insertCalls ++ ["bank_accounts"]) ∧
    ((postBankAccounts oc body file st).2).bank_accounts
      = (match bankResult oc (jsTemplate (getA body "user_id")) file with
         | .error _ => st.bank_accounts
         | .ok pu =>
           if oc.insertFails "bank_accounts" then st.bank_accounts
           else st.bank_accounts ++ [setA body "passbook_photo"
             (match pu with | some u => Val.str u | none => Val.null)]) ∧
    (postBankAccounts oc body file st).1
      = (match bankResult oc (jsTemplate (getA body "user_id")) file with
         | .error e => ⟨500, .err e⟩
         | .ok pu =>
           if oc.insertFails "bank_accounts" then ⟨400, .err "insert failed"⟩
           else ⟨200, .js (some (setA body "passbook_photo"
             (match pu with | some u => Val.str u | none => Val.null)))⟩) := by
  cases file with
  | none =>
    simp only [postBankAccounts, hs, Bool.false_eq_true, if_false, hd,
      maybeSingle, bankResult, bankWrites, slotWrite]
    split_ifs with hi <;> simp [applyA, hi]
  | some buf =>
    simp only [postBankAccounts, hs, Bool.false_eq_true, if_false, hd,
      maybeSingle, bankResult, bankWrites, slotWrite, uploadToSupabase]
    split_ifs with hf hi <;> simp_all [applyA]

theorem applyA_append {α : Type} (m : List (String × α)) (a b : List (String × α)) :
    applyA m (a ++ b) = applyA (applyA m a) b := by
  simp [applyA, List.foldl_append]

/-- C2: if any attachment slot's upload fails during a create, the handler
stops with HTTP 500 before the insert — the table and the insert trace are
unchanged — while slots uploaded before the failing one remain written in
the bucket.  Stated for each possible first-failing vendor slot, and for
the bank-account passbook slot. -/
theorem create_upload_failure_aborts_insert
    (oc : Oracle) (st : SState) (bodyV : Obj) (filesV : VendorFiles)
    (bodyB : Obj) (b1 b2 b3 bp : Bytes)
    (hsV : oc.selectFails "vendors" = false)
    (hdV : st.vendors.filter
      (fun r => decide (getA r "phone" = getA bodyV "phone")) = [])
    (hsB : oc.selectFails "bank_accounts" = false)
    (hdB : st.bank_accounts.filter
      (fun r => decide (getA r "account_number" = getA bodyB "account_number")) = []) :
    (filesV.personal_photo = some b1 →
      oc.uploadFails (filePathOf (jsTemplate (getA bodyV "user_id")) "vendor" "personal.jpg") = true →
      (postVendors oc bodyV filesV st).1.status = 500 ∧
      ((postVendors oc bodyV filesV st).2).vendors = st.vendors ∧
      ((postVendors oc bodyV filesV st).2).insertCalls = st.insertCalls ∧
      ((postVendors oc bodyV filesV st).2).photos = st.photos) ∧
    ((filesV.personal_photo = none ∨
        oc.uploadFails (filePathOf (jsTemplate (getA bodyV "user_id")) "vendor" "personal.jpg") = false) →
      filesV.aadhar_photo = some b2 →
      oc.uploadFails (filePathOf (jsTemplate (getA bodyV "user_id")) "vendor" "aadhar.jpg") = true →
      (postVendors oc bodyV filesV st).1.status = 500 ∧
      ((postVendors oc bodyV filesV st).2).vendors = st.vendors ∧
      ((postVendors oc bodyV filesV st).2).insertCalls = st.insertCalls ∧
      (filesV.personal_photo = some b1 →
        getA ((postVendors oc bodyV filesV st).2).photos
          (filePathOf (jsTemplate (getA bodyV "user_id")) "vendor" "personal.jpg") = some b1)) ∧
    ((filesV.personal_photo = none ∨
        oc.uploadFails (filePathOf (jsTemplate (getA bodyV "user_id")) "vendor" "personal.jpg") = false) →
      (filesV.aadhar_photo = none ∨
        oc.uploadFails (filePathOf (jsTemplate (getA bodyV "user_id")) "vendor" "aadhar.jpg") = false) →
      filesV.cart_photo = some b3 →
      oc.uploadFails (filePathOf (jsTemplate (getA bodyV "user_id")) "vendor" "cart.jpg") = true →
      (postVendors oc bodyV filesV st).1.status = 500 ∧
      ((postVendors oc bodyV filesV st).2).vendors = st.vendors ∧
      ((postVendors oc bodyV filesV st).2).insertCalls = st.insertCalls ∧
      (filesV.personal_photo = some b1 →
        getA ((postVendors oc bodyV filesV st).2).photos
          (filePathOf (jsTemplate (getA bodyV "user_id")) "vendor" "personal.jpg") = some b1) ∧
      (filesV.aadhar_photo = some b2 →
        getA ((postVendors oc bodyV filesV st).2).photos
          (filePathOf (jsTemplate (getA bodyV "user_id")) "vendor" "aadhar.jpg") = some b2)) ∧
    (oc.uploadFails (filePathOf (jsTemplate (getA bodyB "user_id")) "bank" "passbook.jpg") = true →
      (postBankAccounts oc bodyB (some bp) st).1.status = 500 ∧
      ((postBankAccounts oc bodyB (some bp) st).2).bank_accounts = st.bank_accounts ∧
      ((postBankAccounts oc bodyB (some bp) st).2).insertCalls = st.insertCalls ∧
      ((postBankAccounts oc bodyB (some bp) st).2).photos = st.photos) := by
  obtain ⟨hph, hba, huc, hupd, hic, hv, hresp⟩ :=
    postVendors_state oc bodyV filesV st hsV hdV
  obtain ⟨hphB, hvB, hucB, hupdB, hicB, hbaB, hrespB⟩ :=
    postBankAccounts_state oc bodyB (some bp) st hsB hdB
  refine ⟨?_, ?_, ?_, ?_⟩
  · intro hp hf
    have hres : vendorResult oc (jsTemplate (getA bodyV "user_id")) filesV
        = .error "upload failed" := by
      simp [vendorResult, slotFails, hp, hf]
    have hw : vendorWrites oc (jsTemplate (getA bodyV "user_id")) filesV = [] := by
      simp [vendorWrites, slotFails, hp, hf]
    rw [hresp, hres]
    rw [hv, hres]
    rw [hic, hres]
    rw [hph, hw]
    simp [applyA]
  · intro hor ha hf2
    have h1 : slotFails oc
        (filePathOf (jsTemplate (getA bodyV "user_id")) "vendor" "personal.jpg")
        filesV.personal_photo = false := by
      rcases hor with h | h
      · simp [slotFails, h]
      · cases hfp : filesV.personal_photo <;> simp [slotFails, h]
    simp only [slotFails] at h1
    have hres : vendorResult oc (jsTemplate (getA bodyV "user_id")) filesV
        = .error "upload failed" := by
      simp [vendorResult, h1, slotFails, ha, hf2]
    have hw : vendorWrites oc (jsTemplate (getA bodyV "user_id")) filesV
        = slotWrite oc
            (filePathOf (jsTemplate (getA bodyV "user_id")) "vendor" "personal.jpg")
            filesV.personal_photo := by
      simp [vendorWrites, h1, slotFails, ha, hf2]
    rw [hresp, hres]
    rw [hv, hres]
    rw [hic, hres]
    refine ⟨rfl, rfl, rfl, ?_⟩
    intro hp
    have hf1 : oc.uploadFails
        (filePathOf (jsTemplate (getA bodyV "user_id")) "vendor" "personal.jpg")
        = false := by
      rcases hor with h | h
      · rw [hp] at h; cases h
      · exact h
    rw [hph, hw, hp]
    simp [slotWrite, hf1, applyA, getA_setA_self]
  · intro hor1 hor2 hc hf3
    have h1 : slotFails oc
        (filePathOf (jsTemplate (getA bodyV "user_id")) "vendor" "personal.jpg")
        filesV.personal_photo = false := by
      rcases hor1 with h | h
      · simp [slotFails, h]
      · cases hfp : filesV.personal_photo <;> simp [slotFails, h]
    have h2 : slotFails oc
        (filePathOf (jsTemplate (getA bodyV "user_id")) "vendor" "aadhar.jpg")
        filesV.aadhar_photo = false := by
      rcases hor2 with h | h
      · simp [slotFails, h]
      · cases hfa : filesV.aadhar_photo <;> simp [slotFails, h]
    simp only [slotFails] at h1 h2
    have hres : vendorResult oc (jsTemplate (getA bodyV "user_id")) filesV
        = .error "upload failed" := by
      simp [vendorResult, h1, h2, slotFails, hc, hf3]
    have hw : vendorWrites oc (jsTemplate (getA bodyV "user_id")) filesV
        = slotWrite oc
            (filePathOf (jsTemplate (getA bodyV "user_id")) "vendor" "personal.jpg")
            filesV.personal_photo ++
          slotWrite oc
            (filePathOf (jsTemplate (getA bodyV "user_id")) "vendor" "aadhar.jpg")
            filesV.aadhar_photo := by
      simp [vendorWrites, h1, h2, slotFails, hc, hf3]
    rw [hresp, hres]
    rw [hv, hres]
    rw [hic, hres]
    refine ⟨rfl, rfl, rfl, ?_, ?_⟩
    · intro hp
      have hf1 : oc.uploadFails
          (filePathOf (jsTemplate (getA bodyV "user_id")) "vendor" "personal.jpg")
          = false := by
        rcases hor1 with h | h
        · rw [hp] at h; cases h
        · exact h
      rw [hph, hw, hp, applyA_append]
      have hget : getA (applyA st.photos
          (slotWrite oc
            (filePathOf (jsTemplate (getA bodyV "user_id")) "vendor" "personal.jpg")
            (some b1)))
          (filePathOf (jsTemplate (getA bodyV "user_id")) "vendor" "personal.jpg")
          = some b1 := by
        simp [slotWrite, hf1, applyA, getA_setA_self]
      rw [getA_applyA_of_not_mem _ ?_]
      · exact hget
      · cases hfa : filesV.aadhar_photo with
        | none => simp [slotWrite, keysA]
        | some bb =>
          simp only [slotWrite]
          split_ifs
          · simp [keysA]
          · simp [keysA]
            exact vendorPath_pa_ne (jsTemplate (getA bodyV "user_id"))
    · intro ha
      have hf2 : oc.uploadFails
          (filePathOf (jsTemplate (getA bodyV "user_id")) "vendor" "aadhar.jpg")
          = false := by
        rcases hor2 with h | h
        · rw [ha] at h; cases h
        · exact h
      rw [hph, hw, ha, applyA_append]
      simp [slotWrite, hf2, applyA, getA_setA_self]
  · intro hf
    have hres : bankResult oc (jsTemplate (getA bodyB "user_id")) (some bp)
        = .error "upload failed" := by
      simp [bankResult, hf]
    have hw : bankWrites oc (jsTemplate (getA bodyB "user_id")) (some bp) = [] := by
      simp [bankWrites, slotWrite, hf]
    rw [hrespB, hres]
    rw [hbaB, hres]
    rw [hicB, hres]
    rw [hphB, hw]
    simp [applyA]

/-- An oracle that fails exactly the uploads to user u9's cart and passbook
paths, and nothing else. -/
def ocC2 : Oracle :=
  ⟨fun p => decide (p = "u9/vendor/cart.jpg") || decide (p = "u9/bank/passbook.jpg"),
   fun _ => false, fun _ => false, fun _ => false⟩

/-- C2 witness: `create_upload_failure_aborts_insert` applied to a concrete
request whose cart upload (third slot) fails: 500, no insert, first two
slots durably written; and a bank create whose passbook upload fails. -/
theorem create_upload_failure_aborts_insert_witness :
    ocC2.uploadFails
      (filePathOf (jsTemplate (getA [("user_id", Val.str "u9"), ("phone", Val.str "7")] "user_id"))
        "vendor" "cart.jpg") = true ∧
    (postVendors ocC2 [("user_id", Val.str "u9"), ("phone", Val.str "7")]
      ⟨some [1], some [2], some [3]⟩ stW).1.status = 500 ∧
    ((postVendors ocC2 [("user_id", Val.str "u9"), ("phone", Val.str "7")]
      ⟨some [1], some [2], some [3]⟩ stW).2).vendors = stW.vendors ∧
    ((postVendors ocC2 [("user_id", Val.str "u9"), ("phone", Val.str "7")]
      ⟨some [1], some [2], some [3]⟩ stW).2).insertCalls = stW.insertCalls ∧
    getA ((postVendors ocC2 [("user_id", Val.str "u9"), ("phone", Val.str "7")]
      ⟨some [1], some [2], some [3]⟩ stW).2).photos
      (filePathOf (jsTemplate (getA [("user_id", Val.str "u9"), ("phone", Val.str "7")] "user_id"))
        "vendor" "personal.jpg") = some [1] ∧
    getA ((postVendors ocC2 [("user_id", Val.str "u9"), ("phone", Val.str "7")]
      ⟨some [1], some [2], some [3]⟩ stW).2).photos
      (filePathOf (jsTemplate (getA [("user_id", Val.str "u9"), ("phone", Val.str "7")] "user_id"))
        "vendor" "aadhar.jpg") = some [2] ∧
    (postBankAccounts ocC2 [("user_id", Val.str "u9"), ("account_number", Val.str "A9")]
      (some [4]) stW).1.status = 500 := by
  have h := create_upload_failure_aborts_insert ocC2 stW
    [("user_id", Val.str "u9"), ("phone", Val.str "7")]
    ⟨some [1], some [2], some [3]⟩
    [("user_id", Val.str "u9"), ("account_number", Val.str "A9")]
    [1] [2] [3] [4]
    (by decide) (by decide) (by decide) (by decide)
  have hc := h.2.2.1 (Or.inr (by decide)) (Or.inr (by decide)) rfl (by decide)
  have hd := h.2.2.2 (by decide)
  exact ⟨by decide, hc.1, hc.2.1, hc.2.2.1, hc.2.2.2.1 rfl, hc.2.2.2.2 rfl, hd.1⟩

/-- C3: at a concrete update whose target `user_id` ("ghost") matches no
row, the source handlers issue the store update and then respond with
status 200 and `data[0]` of an empty row list (JSON `undefined`) — an
empty success payload, not a NotFound error.  This exhibits the code
behaviour that contradicts the claim. -/
theorem update_missing_target_returns_200_empty :
    (putVendors okOracle "ghost" [("phone", Val.str "1")] ⟨none, none, none⟩ stW).1
      = ⟨200, .js none⟩ ∧
    ((putVendors okOracle "ghost" [("phone", Val.str "1")] ⟨none, none, none⟩ stW).2).updateCalls
      = ["vendors"] ∧
    (putBankAccounts okOracle "ghost" [("ifsc", Val.str "X")] none stW).1
      = ⟨200, .js none⟩ ∧
    ((putBankAccounts okOracle "ghost" [("ifsc", Val.str "X")] none stW).2).updateCalls
      = ["bank_accounts"] := by decide

/-- C4: when a create request supplies both a body field value and a file
for the same attachment slot, the persisted row carries the uploaded
public URL for that slot (the uploaded-URL map is merged on top of the
supplied fields) — for all three vendor slots and for the bank passbook
slot. -/
theorem create_uploaded_url_overrides_supplied_field
    (oc : Oracle) (st : SState) (bodyV bodyB : Obj) (b1 b2 b3 bp : Bytes)
    (wP wB : Val)
    (hsV : oc.selectFails "vendors" = false)
    (hdV : st.vendors.filter
      (fun r => decide (getA r "phone" = getA bodyV "phone")) = [])
    (hsB : oc.selectFails "bank_accounts" = false)
    (hdB : st.bank_accounts.filter
      (fun r => decide (getA r "account_number" = getA bodyB "account_number")) = [])
    (hwP : getA bodyV "personal_photo" = some wP)
    (hwB : getA bodyB "passbook_photo" = some wB)
    (hf1 : oc.uploadFails
      (filePathOf (jsTemplate (getA bodyV "user_id")) "vendor" "personal.jpg") = false)
    (hf2 : oc.uploadFails
      (filePathOf (jsTemplate (getA bodyV "user_id")) "vendor" "aadhar.jpg") = false)
    (hf3 : oc.uploadFails
      (filePathOf (jsTemplate (getA bodyV "user_id")) "vendor" "cart.jpg") = false)
    (hfB : oc.uploadFails
      (filePathOf (jsTemplate (getA bodyB "user_id")) "bank" "passbook.jpg") = false)
    (hiV : oc.insertFails "vendors" = false)
    (hiB : oc.insertFails "bank_accounts" = false) :
    (∃ r, (postVendors oc bodyV ⟨some b1, some b2, some b3⟩ st).1
        = ⟨200, .js (some r)⟩ ∧
      ((postVendors oc bodyV ⟨some b1, some b2, some b3⟩ st).2).vendors
        = st.vendors ++ [r] ∧
      getA r "personal_photo" = some (Val.str (publicUrl
        (filePathOf (jsTemplate (getA bodyV "user_id")) "vendor" "personal.jpg"))) ∧
      getA r "aadhar_photo" = some (Val.str (publicUrl
        (filePathOf (jsTemplate (getA bodyV "user_id")) "vendor" "aadhar.jpg"))) ∧
      getA r "cart_photo" = some (Val.str (publicUrl
        (filePathOf (jsTemplate (getA bodyV "user_id")) "vendor" "cart.jpg")))) ∧
    (∃ rb, (postBankAccounts oc bodyB (some bp) st).1 = ⟨200, .js (some rb)⟩ ∧
      ((postBankAccounts oc bodyB (some bp) st).2).bank_accounts
        = st.bank_accounts ++ [rb] ∧
      getA rb "passbook_photo" = some (Val.str (publicUrl
        (filePathOf (jsTemplate (getA bodyB "user_id")) "bank" "passbook.jpg")))) := by
  obtain ⟨hph, hba, huc, hupd, hic, hv, hresp⟩ :=
    postVendors_state oc bodyV ⟨some b1, some b2, some b3⟩ st hsV hdV
  obtain ⟨hphB, hvB, hucB, hupdB, hicB, hbaB, hrespB⟩ :=
    postBankAccounts_state oc bodyB (some bp) st hsB hdB
  constructor
  · have hres : vendorResult oc (jsTemplate (getA bodyV "user_id"))
        ⟨some b1, some b2, some b3⟩
        = .ok [("personal_photo", Val.str (publicUrl
            (filePathOf (jsTemplate (getA bodyV "user_id")) "vendor" "personal.jpg"))),
           ("aadhar_photo", Val.str (publicUrl
            (filePathOf (jsTemplate (getA bodyV "user_id")) "vendor" "aadhar.jpg"))),
           ("cart_photo", Val.str (publicUrl
            (filePathOf (jsTemplate (getA bodyV "user_id")) "vendor" "cart.jpg")))] := by
      simp [vendorResult, slotFails, slotUrls, setA, hf1, hf2, hf3]
    rw [hres] at hresp hv
    rw [hiV] at hresp hv
    simp only [Bool.false_eq_true, if_false] at hresp hv
    refine ⟨mergeObj bodyV _, hresp, hv, ?_, ?_, ?_⟩ <;>
      exact getA_mergeObj_mem (by simp [nodupKeys, keysA]) (by simp)
  · have hres : bankResult oc (jsTemplate (getA bodyB "user_id")) (some bp)
        = .ok (some (publicUrl
            (filePathOf (jsTemplate (getA bodyB "user_id")) "bank" "passbook.jpg"))) := by
      simp [bankResult, hfB]
    rw [hres] at hrespB hbaB
    rw [hiB] at hrespB hbaB
    simp only [Bool.false_eq_true, if_false] at hrespB hbaB
    exact ⟨setA bodyB "passbook_photo" (Val.str (publicUrl
        (filePathOf (jsTemplate (getA bodyB "user_id")) "bank" "passbook.jpg"))),
      hrespB, hbaB, getA_setA_self bodyB _ _⟩

/-- A vendor create body supplying both a `personal_photo` field value and
(in the witness) a file for that slot. -/
def bodyC4 : Obj :=
  [("user_id", Val.str "u7"), ("phone", Val.str "5"),
   ("personal_photo", Val.str "inline")]

/-- A bank-account create body supplying a `passbook_photo` field value. -/
def bodyB4 : Obj :=
  [("user_id", Val.str "u7"), ("account_number", Val.str "B7"),
   ("passbook_photo", Val.str "inline")]

/-- C4 witness: `create_uploaded_url_overrides_supplied_field` at a
concrete request supplying both field values and files: the stored rows
carry the uploaded public URLs, not the supplied field values. -/
theorem create_uploaded_url_overrides_supplied_field_witness :
    getA bodyC4 "personal_photo" = some (Val.str "inline") ∧
    (postVendors okOracle bodyC4 ⟨some [1], some [2], some [3]⟩ stW).1.status = 200 ∧
    (((postVendors okOracle bodyC4 ⟨some [1], some [2], some [3]⟩ stW).2).vendors.map
        (fun r => getA r "personal_photo")).getLast?
      = some (some (Val.str (publicUrl
          (filePathOf (jsTemplate (getA bodyC4 "user_id")) "vendor" "personal.jpg")))) ∧
    getA bodyB4 "passbook_photo" = some (Val.str "inline") ∧
    (postBankAccounts okOracle bodyB4 (some [4]) stW).1.status = 200 ∧
    (((postBankAccounts okOracle bodyB4 (some [4]) stW).2).bank_accounts.map
        (fun r => getA r "passbook_photo")).getLast?
      = some (some (Val.str (publicUrl
          (filePathOf (jsTemplate (getA bodyB4 "user_id")) "bank" "passbook.jpg")))) := by
  have h := create_uploaded_url_overrides_supplied_field okOracle stW bodyC4 bodyB4
    [1] [2] [3] [4] (Val.str "inline") (Val.str "inline")
    (by decide) (by decide) (by decide) (by decide) (by decide) (by decide)
    (by decide) (by decide) (by decide) (by decide) (by decide) (by decide)
  obtain ⟨⟨r, hresp, hvend, h1, h2, h3⟩, ⟨rb, hrespB, hbaB, hB⟩⟩ := h
  refine ⟨by decide, ?_, ?_, by decide, ?_, ?_⟩
  · rw [hresp]
  · rw [hvend]
    simp [h1]
  · rw [hrespB]
  · rw [hbaB]
    simp [hB]

/-- C5: a bank-account create with no passbook file inserts a row whose
`passbook_photo` column is explicitly `null` — even when the request body
supplied a `passbook_photo` field value — whereas a vendor create with no
files inserts the body unchanged (absent slots are omitted from the merged
row entirely, so a supplied `personal_photo` field value survives). -/
theorem bank_create_absent_passbook_nulled
    (oc : Oracle) (st : SState) (bodyV bodyB : Obj) (wP wB : Val)
    (hsV : oc.selectFails "vendors" = false)
    (hdV : st.vendors.filter
      (fun r => decide (getA r "phone" = getA bodyV "phone")) = [])
    (hsB : oc.selectFails "bank_accounts" = false)
    (hdB : st.bank_accounts.filter
      (fun r => decide (getA r "account_number" = getA bodyB "account_number")) = [])
    (hwB : getA bodyB "passbook_photo" = some wB)
    (hwP : getA bodyV "personal_photo" = some wP)
    (hiV : oc.insertFails "vendors" = false)
    (hiB : oc.insertFails "bank_accounts" = false) :
    (((postBankAccounts oc bodyB none st).2).bank_accounts
        = st.bank_accounts ++ [setA bodyB "passbook_photo" Val.null] ∧
      getA (setA bodyB "passbook_photo" Val.null) "passbook_photo"
        = some Val.null) ∧
    (((postVendors oc bodyV ⟨none, none, none⟩ st).2).vendors
        = st.vendors ++ [bodyV] ∧
      getA bodyV "personal_photo" = some wP) := by
  obtain ⟨hph, hba, huc, hupd, hic, hv, hresp⟩ :=
    postVendors_state oc bodyV ⟨none, none, none⟩ st hsV hdV
  obtain ⟨hphB, hvB, hucB, hupdB, hicB, hbaB, hrespB⟩ :=
    postBankAccounts_state oc bodyB none st hsB hdB
  refine ⟨⟨?_, getA_setA_self bodyB _ _⟩, ⟨?_, hwP⟩⟩
  · have hres : bankResult oc (jsTemplate (getA bodyB "user_id")) none
        = .ok none := rfl
    rw [hres] at hbaB
    rw [hiB] at hbaB
    simpa using hbaB
  · have hres : vendorResult oc (jsTemplate (getA bodyV "user_id"))
        ⟨none, none, none⟩ = .ok [] := rfl
    rw [hres] at hv
    rw [hiV] at hv
    simpa [mergeObj_nil] using hv

/-- C5 witness: concrete creates with supplied attachment field values but
no files — the bank row is stored with `passbook_photo = null`, the vendor
row keeps the supplied field value. -/
theorem bank_create_absent_passbook_nulled_witness :
    getA bodyB4 "passbook_photo" = some (Val.str "inline") ∧
    (((postBankAccounts okOracle bodyB4 none stW).2).bank_accounts.map
        (fun r => getA r "passbook_photo")).getLast? = some (some Val.null) ∧
    getA bodyC4 "personal_photo" = some (Val.str "inline") ∧
    (((postVendors okOracle bodyC4 ⟨none, none, none⟩ stW).2).vendors.map
        (fun r => getA r "personal_photo")).getLast?
      = some (some (Val.str "inline")) := by
  have h := bank_create_absent_passbook_nulled okOracle stW bodyC4 bodyB4
    (Val.str "inline") (Val.str "inline")
    (by decide) (by decide) (by decide) (by decide) (by decide) (by decide)
    (by decide) (by decide)
  obtain ⟨⟨hbank, hnull⟩, ⟨hvend, hkeep⟩⟩ := h
  refine ⟨by decide, ?_, by decide, ?_⟩
  · rw [hbank]
    simp [hnull]
  · rw [hvend]
    simp [hkeep]

theorem vendorResult_personal_none {oc : Oracle} {uid : String}
    {files : VendorFiles} {u : Obj} (h : vendorResult oc uid files = .ok u)
    (hf : files.personal_photo = none) : getA u "personal_photo" = none := by
  simp only [vendorResult] at h
  split_ifs at h
  all_goals cases h
  all_goals
    rw [getA_slotUrls_ne (by decide), getA_slotUrls_ne (by decide)]
  all_goals simp [slotUrls, hf, getA]

theorem slotUrls_none (oc : Oracle) (path slotName : String) (u : Obj) :
    slotUrls oc path slotName none u = u := rfl

theorem vendorResult_aadhar_none {oc : Oracle} {uid : String}
    {files : VendorFiles} {u : Obj} (h : vendorResult oc uid files = .ok u)
    (hf : files.aadhar_photo = none) : getA u "aadhar_photo" = none := by
  simp only [vendorResult] at h
  split_ifs at h
  all_goals cases h
  all_goals
    rw [getA_slotUrls_ne (by decide), hf, slotUrls_none,
      getA_slotUrls_ne (by decide)]
  all_goals rfl

theorem vendorResult_cart_none {oc : Oracle} {uid : String}
    {files : VendorFiles} {u : Obj} (h : vendorResult oc uid files = .ok u)
    (hf : files.cart_photo = none) : getA u "cart_photo" = none := by
  simp only [vendorResult] at h
  split_ifs at h
  all_goals cases h
  all_goals
    rw [hf, slotUrls_none, getA_slotUrls_ne (by decide),
      getA_slotUrls_ne (by decide)]
  all_goals rfl

theorem map_getA_update_eq {patch : Obj} {slot : String}
    (hp : getA patch slot = none) (uid : String) (l : List Obj) :
    ((l.map (fun r => if decide (getA r "user_id" = some (Val.str uid))
        then mergeObj r patch else r)).map (fun r => getA r slot))
      = l.map (fun r => getA r slot) := by
  rw [List.map_map]
  apply List.map_congr_left
  intro r _
  by_cases h : getA r "user_id" = some (Val.str uid) <;>
    simp [Function.comp, h, getA_mergeObj_of_none hp]

/-- A store with one vendor and one bank account for user u1, each with an
existing attachment URL value. -/
def st6 : SState :=
  ⟨[[("user_id", Val.str "u1"), ("personal_photo", Val.str "oldP")]],
   [[("user_id", Val.str "u1"), ("passbook_photo", Val.str "oldB")]],
   [], [], [], [], []⟩

/-- C6 counterexample: the claim "for every update request and every slot
with no file, the patch contains no entry for that slot, so the stored
field is unchanged" is false as stated: an update that supplies no file
but names the slot as a plain body field does patch it, because
`req.body` is spread into the patch.  Here the vendor's `personal_photo`
(prior value "oldP") and the bank account's `passbook_photo` (prior value
"oldB") are overwritten by body values although no file was supplied. -/
theorem update_absent_slot_body_overrides_counterexample :
    st6.vendors.map (fun r => getA r "personal_photo")
      = [some (Val.str "oldP")] ∧
    (((putVendors okOracle "u1" [("personal_photo", Val.str "bodyval")]
        ⟨none, none, none⟩ st6).2).vendors.map (fun r => getA r "personal_photo"))
      = [some (Val.str "bodyval")] ∧
    st6.bank_accounts.map (fun r => getA r "passbook_photo")
      = [some (Val.str "oldB")] ∧
    (((putBankAccounts okOracle "u1" [("passbook_photo", Val.str "bodyval")]
        none st6).2).bank_accounts.map (fun r => getA r "passbook_photo"))
      = [some (Val.str "bodyval")] := by decide

/-- C6 (amended): for every update request and every attachment slot for
which no file was supplied and which the request body does not name as a
field, the patch passed to the store update contains no entry for that
slot, so every stored row's value for that slot is unchanged. -/
theorem update_absent_slot_untouched
    (oc : Oracle) (st : SState) (uid : String) (body bodyB : Obj)
    (files : VendorFiles) (fileB : Option Bytes) :
    (files.personal_photo = none → getA body "personal_photo" = none →
      ((putVendors oc uid body files st).2).vendors.map
          (fun r => getA r "personal_photo")
        = st.vendors.map (fun r => getA r "personal_photo")) ∧
    (files.aadhar_photo = none → getA body "aadhar_photo" = none →
      ((putVendors oc uid body files st).2).vendors.map
          (fun r => getA r "aadhar_photo")
        = st.vendors.map (fun r => getA r "aadhar_photo")) ∧
    (files.cart_photo = none → getA body "cart_photo" = none →
      ((putVendors oc uid body files st).2).vendors.map
          (fun r => getA r "cart_photo")
        = st.vendors.map (fun r => getA r "cart_photo")) ∧
    (fileB = none → getA bodyB "passbook_photo" = none →
      ((putBankAccounts oc uid bodyB fileB st).2).bank_accounts.map
          (fun r => getA r "passbook_photo")
        = st.bank_accounts.map (fun r => getA r "passbook_photo")) := by
  obtain ⟨hph, hba, huc, hic, hupd, hv, hresp⟩ :=
    putVendors_state oc uid body files st
  obtain ⟨hphB, hvB, hucB, hicB, hupdB, hbaB, hrespB⟩ :=
    putBankAccounts_state oc uid bodyB fileB st
  refine ⟨?_, ?_, ?_, ?_⟩
  · intro hf hb
    rw [hv]
    rcases hres : vendorResult oc uid files with e | u
    · rfl
    · simp only
      split_ifs with hu
      · rfl
      · exact map_getA_update_eq (by
          rw [getA_mergeObj_of_none (vendorResult_personal_none hres hf)]
          exact hb) uid st.vendors
  · intro hf hb
    rw [hv]
    rcases hres : vendorResult oc uid files with e | u
    · rfl
    · simp only
      split_ifs with hu
      · rfl
      · exact map_getA_update_eq (by
          rw [getA_mergeObj_of_none (vendorResult_aadhar_none hres hf)]
          exact hb) uid st.vendors
  · intro hf hb
    rw [hv]
    rcases hres : vendorResult oc uid files with e | u
    · rfl
    · simp only
      split_ifs with hu
      · rfl
      · exact map_getA_update_eq (by
          rw [getA_mergeObj_of_none (vendorResult_cart_none hres hf)]
          exact hb) uid st.vendors
  · intro hf hb
    subst hf
    rw [hbaB]
    simp only [bankResult, bankPatch]
    split_ifs with hu
    · rfl
    · exact map_getA_update_eq hb uid st.bank_accounts

/-- C6 witness: an update supplying only a cart file, with a body that
does not name the other slots, leaves `personal_photo` and `aadhar_photo`
unchanged (concrete scenario 3 of the specification). -/
theorem update_absent_slot_untouched_witness :
    (⟨none, none, some [9]⟩ : VendorFiles).personal_photo = none ∧
    getA [("phone", Val.str "2")] "personal_photo" = none ∧
    ((putVendors okOracle "u1" [("phone", Val.str "2")]
        ⟨none, none, some [9]⟩ st6).2).vendors.map (fun r => getA r "personal_photo")
      = st6.vendors.map (fun r => getA r "personal_photo") ∧
    ((putVendors okOracle "u1" [("phone", Val.str "2")]
        ⟨none, none, some [9]⟩ st6).2).vendors.map (fun r => getA r "aadhar_photo")
      = st6.vendors.map (fun r => getA r "aadhar_photo") ∧
    ((putBankAccounts okOracle "u1" [("ifsc", Val.str "I")] none st6).2).bank_accounts.map
        (fun r => getA r "passbook_photo")
      = st6.bank_accounts.map (fun r => getA r "passbook_photo") := by
  have h := update_absent_slot_untouched okOracle st6 "u1"
    [("phone", Val.str "2")] [("ifsc", Val.str "I")] ⟨none, none, some [9]⟩ none
  exact ⟨rfl, by decide, h.1 rfl (by decide), h.2.1 rfl (by decide),
    h.2.2.2 rfl (by decide)⟩

/-- C7: the uploader derives the object path `{userId}/{category}/{fixed
filename}`, always calls the storage client's put with `upsert = true` and
content type `image/jpeg` regardless of the file's bytes, and on success
returns the public URL for that path and stores the bytes at it.  The
handlers invoke it with the static per-slot filenames `personal.jpg`,
`aadhar.jpg`, `cart.jpg` (vendor slots) and `passbook.jpg` (bank slot). -/
theorem uploader_path_scheme_and_put_options
    (oc : Oracle) (st : SState) (buf b1 b2 b3 bp : Bytes)
    (name uid folder : String) (bodyB : Obj) :
    ((uploadToSupabase oc st buf name uid folder).2).uploadAttempts
      = st.uploadAttempts
        ++ [⟨filePathOf uid folder name, buf, true, "image/jpeg"⟩] ∧
    (oc.uploadFails (filePathOf uid folder name) = false →
      (uploadToSupabase oc st buf name uid folder).1
        = .ok (publicUrl (filePathOf uid folder name)) ∧
      ((uploadToSupabase oc st buf name uid folder).2).photos
        = setA st.photos (filePathOf uid folder name) buf) ∧
    (oc.uploadFails (filePathOf uid "vendor" "personal.jpg") = false →
     oc.uploadFails (filePathOf uid "vendor" "aadhar.jpg") = false →
     oc.uploadFails (filePathOf uid "vendor" "cart.jpg") = false →
      ((uploadVendorPhotos oc uid ⟨some b1, some b2, some b3⟩ st).2).uploadAttempts
        = st.uploadAttempts
          ++ [⟨filePathOf uid "vendor" "personal.jpg", b1, true, "image/jpeg"⟩,
              ⟨filePathOf uid "vendor" "aadhar.jpg", b2, true, "image/jpeg"⟩,
              ⟨filePathOf uid "vendor" "cart.jpg", b3, true, "image/jpeg"⟩]) ∧
    ((putBankAccounts oc uid bodyB (some bp) st).2).uploadAttempts
      = st.uploadAttempts
        ++ [⟨filePathOf uid "bank" "passbook.jpg", bp, true, "image/jpeg"⟩] := by
  refine ⟨?_, ?_, ?_, ?_⟩
  · simp only [uploadToSupabase]
    split_ifs <;> rfl
  · intro hf
    simp [uploadToSupabase, hf]
  · intro hf1 hf2 hf3
    simp [uploadVendorPhotos, uploadSlotOpt, uploadToSupabase, hf1, hf2, hf3]
  · by_cases hf : oc.uploadFails (filePathOf uid "bank" "passbook.jpg") <;>
      simp only [putBankAccounts, uploadToSupabase, hf] <;>
      split_ifs <;> simp

/-- C7 witness: the uploader and the handlers at concrete inputs. -/
theorem uploader_path_scheme_and_put_options_witness :
    ((uploadToSupabase okOracle stW [7] "personal.jpg" "u1" "vendor").2).uploadAttempts
      = [⟨filePathOf "u1" "vendor" "personal.jpg", [7], true, "image/jpeg"⟩] ∧
    (uploadToSupabase okOracle stW [7] "personal.jpg" "u1" "vendor").1
      = .ok (publicUrl (filePathOf "u1" "vendor" "personal.jpg")) ∧
    ((uploadVendorPhotos okOracle "u1" ⟨some [1], some [2], some [3]⟩ stW).2).uploadAttempts
      = [⟨filePathOf "u1" "vendor" "personal.jpg", [1], true, "image/jpeg"⟩,
         ⟨filePathOf "u1" "vendor" "aadhar.jpg", [2], true, "image/jpeg"⟩,
         ⟨filePathOf "u1" "vendor" "cart.jpg", [3], true, "image/jpeg"⟩] ∧
    ((putBankAccounts okOracle "u1" [] (some [4]) stW).2).uploadAttempts
      = [⟨filePathOf "u1" "bank" "passbook.jpg", [4], true, "image/jpeg"⟩] := by
  have h := uploader_path_scheme_and_put_options okOracle stW
    [7] [1] [2] [3] [4] "personal.jpg" "u1" "vendor" []
  refine ⟨?_, (h.2.1 (by decide)).1, ?_, ?_⟩
  · have := h.1
    simpa using this
  · have := h.2.2.1 (by decide) (by decide) (by decide)
    simpa using this
  · have := h.2.2.2
    simpa using this

theorem mem_of_getA {α : Type} :
    ∀ {m : List (String × α)} {k : String} {v : α}, getA m k = some v → (k, v) ∈ m
  | [], k, v, h => by simp [getA] at h
  | (k', v') :: rest, k, v, h => by
    by_cases hk : k' = k
    · subst hk
      simp [getA] at h
      simp [h]
    · simp only [getA, if_neg hk] at h
      exact List.mem_cons_of_mem _ (mem_of_getA h)

/-- C8: neither update handler ever issues a uniqueness query (the
uniqueness-check trace is unchanged by every vendor or bank-account
update), and an update may set the natural-key field to a value already
held by another record and still succeed: the store update is issued and
the handler answers 200, with the target rows now carrying the colliding
key value. -/
theorem update_skips_uniqueness_check
    (oc : Oracle) (st : SState) (uid : String) (bodyV bodyB : Obj)
    (filesV : VendorFiles) (fileB : Option Bytes) (v : Val)
    (hnd : nodupKeys bodyV)
    (hv : getA bodyV "phone" = some v)
    (htarget : ∃ r ∈ st.vendors, getA r "user_id" = some (Val.str uid))
    (hother : ∃ r2 ∈ st.vendors,
      getA r2 "phone" = some v ∧ getA r2 "user_id" ≠ some (Val.str uid))
    (hu : oc.updateFails "vendors" = false) :
    ((putVendors oc uid bodyV filesV st).2).uniqueChecks = st.uniqueChecks ∧
    ((putBankAccounts oc uid bodyB fileB st).2).uniqueChecks = st.uniqueChecks ∧
    (putVendors oc uid bodyV ⟨none, none, none⟩ st).1.status = 200 ∧
    ((putVendors oc uid bodyV ⟨none, none, none⟩ st).2).updateCalls
      = st.updateCalls ++ ["vendors"] ∧
    ((putVendors oc uid bodyV ⟨none, none, none⟩ st).2).vendors
      = st.vendors.map (fun r =>
          if decide (getA r "user_id" = some (Val.str uid))
          then mergeObj r bodyV else r) ∧
    (∀ r, getA r "user_id" = some (Val.str uid) →
      getA (mergeObj r bodyV) "phone" = some v) := by
  obtain ⟨hph, hba, huc, hic, hupd, hvv, hresp⟩ :=
    putVendors_state oc uid bodyV filesV st
  obtain ⟨hphB, hvB, hucB, hicB, hupdB, hbaB, hrespB⟩ :=
    putBankAccounts_state oc uid bodyB fileB st
  obtain ⟨hph0, hba0, huc0, hic0, hupd0, hvv0, hresp0⟩ :=
    putVendors_state oc uid bodyV ⟨none, none, none⟩ st
  have hres0 : vendorResult oc uid ⟨none, none, none⟩ = .ok [] := rfl
  rw [hres0] at hresp0 hupd0 hvv0
  refine ⟨huc, hucB, ?_, ?_, ?_, ?_⟩
  · rw [hresp0, hu]
    rfl
  · exact hupd0
  · rw [hvv0, hu]
    rfl
  · intro r hr
    exact getA_mergeObj_mem hnd (mem_of_getA hv)

/-- A store with two vendors: u1 (phone 111) and u2 (phone 222). -/
def st8 : SState :=
  ⟨[[("user_id", Val.str "u1"), ("phone", Val.str "111")],
    [("user_id", Val.str "u2"), ("phone", Val.str "222")]],
   [], [], [], [], [], []⟩

/-- C8 witness: u1's update sets its phone to u2's value 222; no
uniqueness query is issued, the update succeeds with 200, and the store
now holds two rows with phone 222. -/
theorem update_skips_uniqueness_check_witness :
    ((putVendors okOracle "u1" [("phone", Val.str "222")]
        ⟨none, none, none⟩ st8).2).uniqueChecks = [] ∧
    (putVendors okOracle "u1" [("phone", Val.str "222")]
        ⟨none, none, none⟩ st8).1.status = 200 ∧
    ((putVendors okOracle "u1" [("phone", Val.str "222")]
        ⟨none, none, none⟩ st8).2).updateCalls = ["vendors"] ∧
    ((putVendors okOracle "u1" [("phone", Val.str "222")]
        ⟨none, none, none⟩ st8).2).vendors.map (fun r => getA r "phone")
      = [some (Val.str "222"), some (Val.str "222")] := by
  have h := update_skips_uniqueness_check okOracle st8 "u1"
    [("phone", Val.str "222")] [] ⟨none, none, none⟩ none (Val.str "222")
    (by decide) (by decide) (by decide) (by decide) (by decide)
  refine ⟨h.1, h.2.2.1, h.2.2.2.1, ?_⟩
  rw [h.2.2.2.2.1]
  decide

/-- C9: a get-by-user_id request (vendor or bank account) whose `user_id`
matches zero rows produces an error response — status 400 with an error
body (the store's single-row error surfaced verbatim), never a success
payload — and reads do not change the state. -/
theorem get_missing_user_returns_error
    (oc : Oracle) (st : SState) (uid : String)
    (hV : ∀ r ∈ st.vendors, ¬ getA r "user_id" = some (Val.str uid))
    (hB : ∀ r ∈ st.bank_accounts, ¬ getA r "user_id" = some (Val.str uid)) :
    ((getVendorByUserId oc uid st).1.status = 400 ∧
     (∃ m, (getVendorByUserId oc uid st).1.body = .err m) ∧
     (getVendorByUserId oc uid st).2 = st) ∧
    ((getBankAccountByUserId oc uid st).1.status = 400 ∧
     (∃ m, (getBankAccountByUserId oc uid st).1.body = .err m) ∧
     (getBankAccountByUserId oc uid st).2 = st) := by
  have hfV : st.vendors.filter
      (fun r => decide (getA r "user_id" = some (Val.str uid))) = [] := by
    simp only [List.filter_eq_nil_iff, decide_eq_true_eq]
    exact hV
  have hfB : st.bank_accounts.filter
      (fun r => decide (getA r "user_id" = some (Val.str uid))) = [] := by
    simp only [List.filter_eq_nil_iff, decide_eq_true_eq]
    exact hB
  constructor
  · by_cases hs : oc.selectFails "vendors" <;>
      simp [getVendorByUserId, hs, hfV, single]
  · by_cases hs : oc.selectFails "bank_accounts" <;>
      simp [getBankAccountByUserId, hs, hfB, single]

/-- C9 witness: looking up the nonexistent user "ghost". -/
theorem get_missing_user_returns_error_witness :
    (getVendorByUserId okOracle "ghost" stW).1.status = 400 ∧
    (∃ m, (getVendorByUserId okOracle "ghost" stW).1.body = .err m) ∧
    (getBankAccountByUserId okOracle "ghost" stW).1.status = 400 ∧
    (∃ m, (getBankAccountByUserId okOracle "ghost" stW).1.body = .err m) := by
  have h := get_missing_user_returns_error okOracle stW "ghost"
    (by decide) (by decide)
  exact ⟨h.1.1, h.1.2.1, h.2.1, h.2.2.1⟩

theorem bankWrites_nodupKeys (oc : Oracle) (uid : String) (file : Option Bytes) :
    (keysA (bankWrites oc uid file)).Nodup := by
  cases file with
  | none => simp [bankWrites, slotWrite, keysA]
  | some b =>
    simp only [bankWrites, slotWrite]
    split_ifs <;> simp [keysA]

theorem bankPatch_nodup {body : Obj} (h : nodupKeys body) (pu : Option String) :
    nodupKeys (bankPatch body pu) := by
  cases pu with
  | none => exact h
  | some u => exact nodupKeys_setA h _ _

/-- C10: update is idempotent.  Running the same vendor (resp. bank
account) update twice in a row leaves exactly the store state that one run
produces: both tables and the blob bucket are unchanged by the second run
(the second run merely overwrites the same blob paths with the same
bytes).  `nodupKeys` holds of every JS-parsed request body. -/
theorem update_idempotent
    (oc : Oracle) (st : SState) (uid : String) (bodyV bodyB : Obj)
    (filesV : VendorFiles) (fileB : Option Bytes)
    (hndV : nodupKeys bodyV) (hndB : nodupKeys bodyB) :
    (((putVendors oc uid bodyV filesV
          ((putVendors oc uid bodyV filesV st).2)).2).vendors
        = ((putVendors oc uid bodyV filesV st).2).vendors ∧
     ((putVendors oc uid bodyV filesV
          ((putVendors oc uid bodyV filesV st).2)).2).bank_accounts
        = ((putVendors oc uid bodyV filesV st).2).bank_accounts ∧
     ((putVendors oc uid bodyV filesV
          ((putVendors oc uid bodyV filesV st).2)).2).photos
        = ((putVendors oc uid bodyV filesV st).2).photos) ∧
    (((putBankAccounts oc uid bodyB fileB
          ((putBankAccounts oc uid bodyB fileB st).2)).2).bank_accounts
        = ((putBankAccounts oc uid bodyB fileB st).2).bank_accounts ∧
     ((putBankAccounts oc uid bodyB fileB
          ((putBankAccounts oc uid bodyB fileB st).2)).2).vendors
        = ((putBankAccounts oc uid bodyB fileB st).2).vendors ∧
     ((putBankAccounts oc uid bodyB fileB
          ((putBankAccounts oc uid bodyB fileB st).2)).2).photos
        = ((putBankAccounts oc uid bodyB fileB st).2).photos) := by
  obtain ⟨hph1, hba1, huc1, hic1, hupd1, hv1, hresp1⟩ :=
    putVendors_state oc uid bodyV filesV st
  obtain ⟨hph2, hba2, huc2, hic2, hupd2, hv2, hresp2⟩ :=
    putVendors_state oc uid bodyV filesV ((putVendors oc uid bodyV filesV st).2)
  obtain ⟨hphB1, hvB1, hucB1, hicB1, hupdB1, hbaB1, hrespB1⟩ :=
    putBankAccounts_state oc uid bodyB fileB st
  obtain ⟨hphB2, hvB2, hucB2, hicB2, hupdB2, hbaB2, hrespB2⟩ :=
    putBankAccounts_state oc uid bodyB fileB
      ((putBankAccounts oc uid bodyB fileB st).2)
  refine ⟨⟨?_, hba2, ?_⟩, ⟨?_, hvB2, ?_⟩⟩
  · rw [hv2]
    rcases hres : vendorResult oc uid filesV with e | u
    · rfl
    · simp only
      split_ifs with hu
      · rfl
      · rw [hv1, hres]
        simp only [hu, Bool.false_eq_true, if_false]
        exact map_update_idem (nodupKeys_applyA u hndV) uid st.vendors
  · rw [hph2, hph1]
    exact applyA_applyA (vendorWrites_nodupKeys oc uid filesV) st.photos
  · rw [hbaB2]
    rcases hres : bankResult oc uid fileB with e | pu
    · rfl
    · simp only
      split_ifs with hu
      · rfl
      · rw [hbaB1, hres]
        simp only [hu, Bool.false_eq_true, if_false]
        exact map_update_idem (bankPatch_nodup hndB pu) uid st.bank_accounts
  · rw [hphB2, hphB1]
    exact applyA_applyA (bankWrites_nodupKeys oc uid fileB) st.photos

/-- C10 witness: running a concrete vendor update (with one file) and a
concrete bank-account update twice yields the same stores as running each
once. -/
theorem update_idempotent_witness :
    nodupKeys [("phone", Val.str "5")] ∧
    ((putVendors okOracle "u1" [("phone", Val.str "5")] ⟨some [1], none, none⟩
        ((putVendors okOracle "u1" [("phone", Val.str "5")] ⟨some [1], none, none⟩ st6).2)).2).vendors
      = ((putVendors okOracle "u1" [("phone", Val.str "5")] ⟨some [1], none, none⟩ st6).2).vendors ∧
    ((putVendors okOracle "u1" [("phone", Val.str "5")] ⟨some [1], none, none⟩
        ((putVendors okOracle "u1" [("phone", Val.str "5")] ⟨some [1], none, none⟩ st6).2)).2).photos
      = ((putVendors okOracle "u1" [("phone", Val.str "5")] ⟨some [1], none, none⟩ st6).2).photos ∧
    ((putBankAccounts okOracle "u1" [("ifsc", Val.str "I")] (some [2])
        ((putBankAccounts okOracle "u1" [("ifsc", Val.str "I")] (some [2]) st6).2)).2).bank_accounts
      = ((putBankAccounts okOracle "u1" [("ifsc", Val.str "I")] (some [2]) st6).2).bank_accounts ∧
    ((putBankAccounts okOracle "u1" [("ifsc", Val.str "I")] (some [2])
        ((putBankAccounts okOracle "u1" [("ifsc", Val.str "I")] (some [2]) st6).2)).2).photos
      = ((putBankAccounts okOracle "u1" [("ifsc", Val.str "I")] (some [2]) st6).2).photos := by
  have h := update_idempotent okOracle st6 "u1" [("phone", Val.str "5")]
    [("ifsc", Val.str "I")] ⟨some [1], none, none⟩ (some [2])
    (by decide) (by decide)
  exact ⟨by decide, h.1.1, h.1.2.2, h.2.1, h.2.2.2⟩
